import Mathlib

/-!
Shallow embedding of `rhasspytts_larynx_hermes/__init__.py` (Hermes MQTT server
for Rhasspy TTS using Larynx), covering the request-orchestration core:
`VoiceInfo.cache_id`, `TtsHermesMqtt.get_sentence_hash`, `get_wav_duration`,
`change_volume`, `handle_say`, `handle_get_voices` and the
`play_finished_events` map handled by `on_message`.

Bytes are modelled as `List Nat` (each element one byte), times and volume
factors as `ℚ`, and external effects (synthesis, the file system cache, the
local player subprocess, the arrival of an `AudioPlayFinished` message) as an
explicit environment.  `handle_say` is an async generator; its execution is
modelled as a pure function returning the ordered trace of its actions
(yields, cache reads/writes, playback dispatch, the bounded wait) together
with the final cache and pending-playback state.
-/

/-- Little-endian value of a byte list (used for WAV header fields). -/
def leVal : List Nat → Nat
  | [] => 0
  | b :: rest => b % 256 + 256 * leVal rest

/-- Bytes `[off, off+len)` of a byte string. -/
def sliceBytes (wav : List Nat) (off len : Nat) : List Nat :=
  (wav.drop off).take len

/-- Little-endian encoding of `v` on `n` bytes. -/
def natToLE (v n : Nat) : List Nat :=
  (List.range n).map (fun i => v / 256 ^ i % 256)

/-- Split a character list on a separator character. -/
def splitOnChar (c : Char) : List Char → List (List Char)
  | [] => [[]]
  | x :: xs =>
    match splitOnChar c xs with
    | [] => [[]]
    | h :: t => if x = c then [] :: h :: t else (x :: h) :: t

/-- `pathlib.Path.name`: the final path component. -/
def pathName (p : String) : String :=
  match (splitOnChar '/' p.toList).getLast? with
  | some l => String.mk l
  | none => p

/-- Voice description, from `VoiceInfo` in `__init__.py`.  Model paths are
kept as strings; fields not involved in the claims (audio/tts/vocoder
settings) are omitted. -/
structure VoiceInfo where
  name : String
  language : String
  ttsModelType : String
  ttsModelPath : String
  vocoderModelType : String
  vocoderModelPath : String
  sampleRate : Nat := 22050
deriving DecidableEq

/-- `VoiceInfo.cache_id`.  The source builds it as
`"{self.name}" + f"_{self.language}" + ...`: the first component is a plain
string literal (the `f` prefix is missing), so the voice's actual name never
enters the identity — the literal text `{self.name}` does.  The embedding
reproduces that literal faithfully (`\x7b` / `\x7d` are the brace
characters). -/
def VoiceInfo.cacheId (v : VoiceInfo) : String :=
  "\x7bself.name\x7d"
    ++ "_" ++ v.language
    ++ "_" ++ v.ttsModelType
    ++ "_" ++ pathName v.ttsModelPath
    ++ "_" ++ v.vocoderModelType
    ++ "_" ++ pathName v.vocoderModelPath

/-- Stand-in for the external `hashlib.md5` hex digest of the UTF-8 bytes of
a string.  `hashlib` is outside this repository; the spec requires of the
digest only determinism and collision resistance, so the model is an
injective function of the input string.  Every claim depends only on
equality or inequality of digest inputs, never on digest internals. -/
def md5hex (s : String) : String := s

/-- `TtsHermesMqtt.get_sentence_hash`: digest of `f"{voice}_{sentence}"`. -/
def getSentenceHash (voice sentence : String) : String :=
  md5hex (voice ++ "_" ++ sentence)

/-- Cache file name for a digest: `f"{sentence_hash.hexdigest()}.wav"`. -/
def cacheFileName (digest : String) : String := digest ++ ".wav"

/-- Cache file name for a voice and a sentence text. -/
def sentenceFile (voice : VoiceInfo) (text : String) : String :=
  cacheFileName (getSentenceHash voice.cacheId text)

/-- WAV header fields read by the `wave` module. -/
structure WavHeader where
  channels : Nat
  framerate : Nat
  sampwidth : Nat
  dataSize : Nat
deriving DecidableEq

/-- Parse a canonical 44-byte RIFF/WAVE header (the layout produced by the
`wave` writer used throughout this program): magic strings `RIFF`, `WAVE`,
`fmt `, channel count at offset 22, frame rate at 24, bits per sample at 34
(sample width is bytes per sample), data chunk size at 40.  `none` models a
`wave.Error` on open. -/
def parseWavHeader (wav : List Nat) : Option WavHeader :=
  if wav.length < 44 then none
  else if sliceBytes wav 0 4 ≠ [82, 73, 70, 70] then none
  else if sliceBytes wav 8 4 ≠ [87, 65, 86, 69] then none
  else if sliceBytes wav 12 4 ≠ [102, 109, 116, 32] then none
  else
    some { channels := leVal (sliceBytes wav 22 2)
           framerate := leVal (sliceBytes wav 24 4)
           sampwidth := (leVal (sliceBytes wav 34 2) + 7) / 8
           dataSize := leVal (sliceBytes wav 40 4) }

/-- `TtsHermesMqtt.get_wav_duration`: `guess_frames = (len(wav_bytes) - 44) /
width; return guess_frames / float(rate)`.  `none` models the exceptions the
source can raise here: a malformed header (`wave.Error`) or a zero sample
width or frame rate (`ZeroDivisionError`). -/
def getWavDuration (wav : List Nat) : Option ℚ :=
  match parseWavHeader wav with
  | none => none
  | some h =>
    if h.sampwidth = 0 ∨ h.framerate = 0 then none
    else some ((((wav.length : ℚ) - 44) / (h.sampwidth : ℚ)) / (h.framerate : ℚ))

/-- Truncation toward zero, as the C cast in `audioop.mul` does. -/
def ratTrunc (q : ℚ) : Int :=
  if 0 ≤ q then ⌊q⌋ else ⌈q⌉

/-- Saturate a sample value to the signed range of `width` bytes. -/
def clampSample (v : Int) (width : Nat) : Int :=
  let maxv : Int := 2 ^ (8 * width - 1) - 1
  let minv : Int := -(2 ^ (8 * width - 1))
  if v > maxv then maxv else if v < minv then minv else v

/-- Little-endian signed sample value of a byte group. -/
def bytesToSample (bs : List Nat) : Int :=
  let u := leVal bs
  if u < 2 ^ (8 * bs.length - 1) then (u : Int) else (u : Int) - 2 ^ (8 * bs.length)

/-- Little-endian bytes of a signed sample value on `width` bytes. -/
def sampleToBytes (v : Int) (width : Nat) : List Nat :=
  natToLE (v % (2 ^ (8 * width) : Int)).toNat width

/-- Split a byte list into groups of `w` bytes. -/
def chunkBytes (w : Nat) (l : List Nat) : List (List Nat) :=
  if h : w = 0 ∨ l = [] then []
  else l.take w :: chunkBytes w (l.drop w)
termination_by l.length
decreasing_by
  simp only [List.length_drop]
  rcases Nat.eq_zero_or_pos w with hw | hw
  · exact absurd (Or.inl hw) h
  · have hl : l ≠ [] := fun hl => h (Or.inr hl)
    have : 0 < l.length := List.length_pos.mpr hl
    omega

/-- `audioop.mul`: multiply every `width`-byte sample by `factor`,
saturating at the representable range. -/
def audioopMul (data : List Nat) (width : Nat) (factor : ℚ) : List Nat :=
  ((chunkBytes width data).map
    (fun c => sampleToBytes (clampSample (ratTrunc ((bytesToSample c : ℚ) * factor)) width) width)).flatten

/-- The canonical 44-byte header the `wave` writer emits. -/
def wavHeaderBytes (channels rate width dataSize : Nat) : List Nat :=
  [82, 73, 70, 70] ++ natToLE (36 + dataSize) 4 ++ [87, 65, 86, 69]
    ++ [102, 109, 116, 32] ++ natToLE 16 4 ++ natToLE 1 2 ++ natToLE channels 2
    ++ natToLE rate 4 ++ natToLE (rate * channels * width) 4
    ++ natToLE (channels * width) 2 ++ natToLE (8 * width) 2
    ++ [100, 97, 116, 97] ++ natToLE dataSize 4

/-- `TtsHermesMqtt.change_volume`: return the input unchanged when the
factor is exactly `1.0`; otherwise decode, scale every sample with
`audioop.mul`, and re-encode with the same rate/width/channel count.  Any
decode failure is caught and the original bytes are returned. -/
def changeVolume (wav : List Nat) (volume : ℚ) : List Nat :=
  if volume = 1 then wav
  else
    match parseWavHeader wav with
    | none => wav
    | some h =>
      if h.sampwidth = 0 ∨ h.channels = 0 then wav
      else
        let nframes := h.dataSize / (h.sampwidth * h.channels)
        let data := sliceBytes wav 44 (nframes * h.sampwidth * h.channels)
        let scaled := audioopMul data h.sampwidth volume
        wavHeaderBytes h.channels h.framerate h.sampwidth scaled.length ++ scaled

/-- `TtsSay` request fields used by `handle_say`. -/
structure TtsSay where
  text : String
  siteId : String
  lang : Option String
  id : Option String
  sessionId : String
  volume : Option ℚ
deriving DecidableEq

/-- Messages yielded by `handle_say` / `on_message`. -/
inductive Event where
  | playBytes (wav : List Nat) (siteId requestId : String)
  | audioPlayError (error : String) (context : Option String) (siteId sessionId : String)
  | ttsError (error : String) (context : Option String) (siteId sessionId : String)
  | sayFinished (id : Option String) (siteId sessionId : String)
deriving DecidableEq

/-- Whether an event is the terminal `TtsSayFinished`. -/
def Event.isSayFinished : Event → Bool
  | .sayFinished _ _ _ => true
  | _ => false

/-- Ordered actions of one `handle_say` execution: yields interleaved with
the internal effects the claims talk about (cache read/write, synthesis,
playback dispatch, registration in `play_finished_events`, the bounded
wait). -/
inductive SayAction where
  | cacheRead (fileName : String) (bytes : List Nat)
  | synthCall (voiceName text : String)
  | localPlay (wav : List Nat)
  | yieldPlayBytes (wav : List Nat) (siteId requestId : String)
  | yieldAudioPlayError (error : String) (context : Option String) (siteId sessionId : String)
  | registerPending (requestId : String)
  | cacheWrite (fileName : String) (bytes : List Nat)
  | waitOutcome (timeout returnedAt : ℚ) (timedOut : Bool)
deriving DecidableEq

/-- The event a trace action yields on the bus, if any. -/
def actionEvent : SayAction → Option Event
  | .yieldPlayBytes w s r => some (.playBytes w s r)
  | .yieldAudioPlayError e c s ss => some (.audioPlayError e c s ss)
  | _ => none

/-- Events published by a trace. -/
def coreEvents (acts : List SayAction) : List Event :=
  acts.filterMap actionEvent

/-- Trace predicate: is a cache write. -/
def SayAction.isCacheWrite : SayAction → Bool
  | .cacheWrite _ _ => true
  | _ => false

/-- Trace predicate: is the bounded completion wait. -/
def SayAction.isWait : SayAction → Bool
  | .waitOutcome _ _ _ => true
  | _ => false

/-- Trace predicate: is a bus playback dispatch. -/
def SayAction.isYieldPlay : SayAction → Bool
  | .yieldPlayBytes _ _ _ => true
  | _ => false

/-- Trace predicate: is a registration in `play_finished_events`. -/
def SayAction.isRegister : SayAction → Bool
  | .registerPending _ => true
  | _ => false

/-- Trace predicate: is a synthesis invocation. -/
def SayAction.isSynth : SayAction → Bool
  | .synthCall _ _ => true
  | _ => false

/-- Environment of one `handle_say` run: the server configuration plus the
outcome of each external effect (file cache contents, synthesis result,
local player success, cache-write success, and when — if ever — the
`AudioPlayFinished` message for this request arrives, measured from the
start of the wait). -/
structure SayEnv where
  voices : List (String × VoiceInfo)
  defaultVoice : String
  cacheEnabled : Bool
  cache : List (String × List Nat)
  configVolume : Option ℚ
  playCommand : Bool
  localPlaySucceeds : Bool
  cacheWriteSucceeds : Bool
  synthResult : Option (List Nat)
  freshId : String
  playFinishedArrival : Option ℚ
deriving DecidableEq

/-- Result of one `handle_say` run before the `except`/`finally` clauses:
the action trace, the final cache contents, the entries of
`play_finished_events` still present for this request when processing ends,
the `from_cache` flag, and the exception (if any) that escaped to the outer
`except`. -/
structure CoreResult where
  trace : List SayAction
  cache : List (String × List Nat)
  pendingAtEnd : List String
  fromCache : Bool
  error : Option String
deriving DecidableEq

/-- `voice_name = say.lang or self.default_voice` (Python `or`: `None` and
the empty string both fall back to the default). -/
def resolveVoiceName (env : SayEnv) (say : TtsSay) : String :=
  match say.lang with
  | some l => if l = "" then env.defaultVoice else l
  | none => env.defaultVoice

/-- `request_id = say.id or str(uuid4())`. -/
def requestIdOf (env : SayEnv) (say : TtsSay) : String :=
  match say.id with
  | some i => if i = "" then env.freshId else i
  | none => env.freshId

/-- Effective volume: the request override if present, else the configured
volume. -/
def effectiveVolume (env : SayEnv) (say : TtsSay) : Option ℚ :=
  match say.volume with
  | some v => some v
  | none => env.configVolume

/-- The bytes actually dispatched: `change_volume` applied when an effective
volume exists, the raw bytes otherwise. -/
def applyVolume (env : SayEnv) (say : TtsSay) (wav : List Nat) : List Nat :=
  match effectiveVolume env say with
  | some v => changeVolume wav v
  | none => wav

/-- Whether the `AudioPlayFinished` message arrives within `timeout` seconds
of the start of the wait. -/
def arrivedInTime (env : SayEnv) (timeout : ℚ) : Bool :=
  match env.playFinishedArrival with
  | some a => decide (a ≤ timeout)
  | none => false

/-- Whether `asyncio.wait_for(finished_event.wait(), timeout)` returns
without a `TimeoutError`: the event was already set (local playback), or
the request was registered and its finished signal arrives in time. -/
def waitSignalled (env : SayEnv) (finishedSet : Bool) (pendingReq : Option String)
    (timeout : ℚ) : Bool :=
  finishedSet || (pendingReq.isSome && arrivedInTime env timeout)

/-- When the wait returns: immediately if the event was already set, at the
arrival time if the signal comes in time, at the deadline otherwise. -/
def waitReturnAt (env : SayEnv) (finishedSet : Bool) (timeout : ℚ) : ℚ :=
  if finishedSet then 0
  else
    match env.playFinishedArrival with
    | some a => if a ≤ timeout then a else timeout
    | none => timeout

/-- Lines 206–214: compute the timeout from the dispatched bytes and wait
for the finished event.  A malformed WAV raises out of this block (only
`TimeoutError` is caught here); a timeout is logged and swallowed.  The
pending entry is popped by `on_message` only when the finished signal
actually arrives. -/
def sayWait (env : SayEnv) (tr : List SayAction) (cache : List (String × List Nat))
    (fromCache : Bool) (scaled : List Nat) (finishedSet : Bool)
    (pendingReq : Option String) : CoreResult :=
  match getWavDuration scaled with
  | none =>
    { trace := tr, cache := cache, pendingAtEnd := pendingReq.toList
      fromCache := fromCache, error := some "wav open failed" }
  | some dur =>
    let timeout := dur + 1 / 4
    { trace := tr ++ [SayAction.waitOutcome timeout (waitReturnAt env finishedSet timeout)
        (!waitSignalled env finishedSet pendingReq timeout)]
      cache := cache
      pendingAtEnd := if pendingReq.isSome && arrivedInTime env timeout then [] else pendingReq.toList
      fromCache := fromCache, error := none }

/-- Lines 201–204 then 206–214: `if (not from_cache) and cached_wav_path:`
write the pre-scaling bytes to the cache file (a failure escapes to the
outer `except`), then wait. -/
def sayCacheAndWait (env : SayEnv) (fileName : String) (fromCache : Bool)
    (tr : List SayAction) (original scaled : List Nat) (finishedSet : Bool)
    (pendingReq : Option String) : CoreResult :=
  if fromCache = false ∧ env.cacheEnabled = true then
    if env.cacheWriteSucceeds then
      sayWait env (tr ++ [SayAction.cacheWrite fileName original])
        ((fileName, original) :: env.cache) fromCache scaled finishedSet pendingReq
    else
      { trace := tr, cache := env.cache, pendingAtEnd := pendingReq.toList
        fromCache := fromCache, error := some "cache write failed" }
  else
    sayWait env tr env.cache fromCache scaled finishedSet pendingReq

/-- Lines 160–199: resolve the effective volume, scale only the copy to be
dispatched, then either play via the local command (yielding an
`AudioPlayError` on failure and never registering a pending entry) or
publish `AudioPlayBytes` after registering in `play_finished_events`. -/
def sayAfterWav (env : SayEnv) (say : TtsSay) (fileName : String) (fromCache : Bool)
    (tr : List SayAction) (wav : List Nat) : CoreResult :=
  let scaled := applyVolume env say wav
  if env.playCommand then
    if env.localPlaySucceeds then
      sayCacheAndWait env fileName fromCache (tr ++ [SayAction.localPlay scaled])
        wav scaled true none
    else
      sayCacheAndWait env fileName fromCache
        (tr ++ [SayAction.yieldAudioPlayError "play_command" say.id say.siteId say.sessionId])
        wav scaled false none
  else
    sayCacheAndWait env fileName fromCache
      (tr ++ [SayAction.registerPending (requestIdOf env say),
              SayAction.yieldPlayBytes (applyVolume env say wav) say.siteId (requestIdOf env say)])
      wav (applyVolume env say wav) false (some (requestIdOf env say))

/-- Lines 152–158: synthesize when no (non-empty) cached bytes were found;
a synthesis exception or empty result escapes to the outer `except`. -/
def saySynth (env : SayEnv) (say : TtsSay) (fileName : String) (fromCache : Bool)
    (tr : List SayAction) : CoreResult :=
  match env.synthResult with
  | none =>
    { trace := tr ++ [SayAction.synthCall (resolveVoiceName env say) say.text]
      cache := env.cache, pendingAtEnd := [], fromCache := fromCache
      error := some "synthesize failed" }
  | some w =>
    if w = [] then
      { trace := tr ++ [SayAction.synthCall (resolveVoiceName env say) say.text]
        cache := env.cache, pendingAtEnd := [], fromCache := fromCache
        error := some "No WAV data synthesized" }
    else
      sayAfterWav env say fileName fromCache
        (tr ++ [SayAction.synthCall (resolveVoiceName env say) say.text]) w

/-- The body of `handle_say`'s `try:` block (lines 127–214): resolve the
voice, look the sentence up in the cache (`from_cache` is set as soon as the
file exists, even when its contents are empty and synthesis still runs),
then scale, dispatch, cache-fill and wait. -/
def sayCore (env : SayEnv) (say : TtsSay) : CoreResult :=
  match env.voices.lookup (resolveVoiceName env say) with
  | none =>
    { trace := [], cache := env.cache, pendingAtEnd := [], fromCache := false
      error := some ("No voice named " ++ resolveVoiceName env say) }
  | some voice =>
    let fileName := sentenceFile voice say.text
    match (if env.cacheEnabled then env.cache.lookup fileName else none) with
    | some b =>
      if b = [] then
        saySynth env say fileName true [SayAction.cacheRead fileName b]
      else
        sayAfterWav env say fileName true [SayAction.cacheRead fileName b] b
    | none => saySynth env say fileName false []

/-- Full result of `handle_say`: the core run plus the `except` clause
(yield one `TtsError` if an exception escaped) and the `finally` clause
(always yield exactly one `TtsSayFinished` with the request's ids). -/
structure SayResult where
  core : CoreResult
  events : List Event
deriving DecidableEq

/-- `TtsHermesMqtt.handle_say` (lines 114–227), fully consumed. -/
def handleSay (env : SayEnv) (say : TtsSay) : SayResult :=
  let core := sayCore env say
  { core := core
    events := coreEvents core.trace
      ++ (match core.error with
          | some e => [Event.ttsError e say.id say.siteId say.sessionId]
          | none => [])
      ++ [Event.sayFinished say.id say.siteId say.sessionId] }

/-- `GetVoices` request fields used by `handle_get_voices`. -/
structure GetVoicesMsg where
  id : Option String
  siteId : String
deriving DecidableEq

/-- Messages yielded by `handle_get_voices`. -/
inductive GvEvent where
  | voicesList (voiceIds : List String) (id : Option String) (siteId : String)
  | gvError (error : String) (context : Option String) (siteId : String)
deriving DecidableEq

/-- `TtsHermesMqtt.handle_get_voices` (lines 231–246): build one `Voice`
descriptor per configured voice id inside a `try`; on an enumeration
exception after `k` descriptors, yield a `TtsError` — and then, outside the
`try`, unconditionally yield the `Voices` response with whatever list was
accumulated.  `failAt = some k` (with `k` short of the end) injects an
exception at the `k`-th iteration. -/
def handleGetVoices (voiceIds : List String) (failAt : Option Nat)
    (gv : GetVoicesMsg) : List GvEvent :=
  match failAt with
  | some k =>
    if k < voiceIds.length then
      [GvEvent.gvError "enumeration failed" gv.id gv.siteId,
       GvEvent.voicesList (voiceIds.take k) gv.id gv.siteId]
    else
      [GvEvent.voicesList voiceIds gv.id gv.siteId]
  | none => [GvEvent.voicesList voiceIds gv.id gv.siteId]

/-- A concrete voice used in counterexamples and witnesses. -/
def vEn : VoiceInfo :=
  { name := "en-voice", language := "en", ttsModelType := "glow_tts"
    ttsModelPath := "/models/tts", vocoderModelType := "hifi_gan"
    vocoderModelPath := "/models/voc" }

/-- A concrete valid 48-byte WAV: canonical header (mono, rate 2, 16-bit)
plus 4 data bytes, so the estimated duration is `((48 - 44) / 2) / 2 = 1`. -/
def wav48 : List Nat :=
  [82, 73, 70, 70, 40, 0, 0, 0, 87, 65, 86, 69,
   102, 109, 116, 32, 16, 0, 0, 0, 1, 0, 1, 0,
   2, 0, 0, 0, 4, 0, 0, 0, 2, 0, 16, 0,
   100, 97, 116, 97, 4, 0, 0, 0, 1, 2, 3, 4]

/-- A concrete say request. -/
def say0 : TtsSay :=
  { text := "hello", siteId := "site", lang := none, id := some "ctx"
    sessionId := "sess", volume := none }

/-- A concrete environment: one voice, caching enabled with an empty cache,
no local player, synthesis yields `wav48`, no `AudioPlayFinished` ever
arrives. -/
def envBase : SayEnv :=
  { voices := [("en", vEn)], defaultVoice := "en", cacheEnabled := true
    cache := [], configVolume := none, playCommand := false
    localPlaySucceeds := true, cacheWriteSucceeds := true
    synthResult := some wav48, freshId := "fresh", playFinishedArrival := none }


/-- Unfolding of the wait phase when the dispatched bytes parse. -/
theorem sayWait_eq (env : SayEnv) (tr : List SayAction) (cache : List (String × List Nat))
    (fc : Bool) (scaled : List Nat) (fin : Bool) (pr : Option String) (dur : ℚ)
    (hd : getWavDuration scaled = some dur) :
    sayWait env tr cache fc scaled fin pr =
      { trace := tr ++ [SayAction.waitOutcome (dur + 1 / 4)
          (waitReturnAt env fin (dur + 1 / 4)) (!waitSignalled env fin pr (dur + 1 / 4))]
        cache := cache
        pendingAtEnd := if pr.isSome && arrivedInTime env (dur + 1 / 4) then [] else pr.toList
        fromCache := fc, error := none } := by
  simp only [sayWait, hd]

/-- Unfolding of the wait phase when the dispatched bytes do not parse. -/
theorem sayWait_none (env : SayEnv) (tr : List SayAction) (cache : List (String × List Nat))
    (fc : Bool) (scaled : List Nat) (fin : Bool) (pr : Option String)
    (hd : getWavDuration scaled = none) :
    sayWait env tr cache fc scaled fin pr =
      { trace := tr, cache := cache, pendingAtEnd := pr.toList
        fromCache := fc, error := some "wav open failed" } := by
  simp only [sayWait, hd]

/-- The wait phase keeps the cache argument unchanged. -/
theorem sayWait_cache (env : SayEnv) (tr : List SayAction) (cache : List (String × List Nat))
    (fc : Bool) (scaled : List Nat) (fin : Bool) (pr : Option String) :
    (sayWait env tr cache fc scaled fin pr).cache = cache := by
  unfold sayWait
  cases getWavDuration scaled <;> rfl

/-- The wait phase preserves the `from_cache` flag. -/
theorem sayWait_fromCache (env : SayEnv) (tr : List SayAction)
    (cache : List (String × List Nat)) (fc : Bool) (scaled : List Nat) (fin : Bool)
    (pr : Option String) :
    (sayWait env tr cache fc scaled fin pr).fromCache = fc := by
  unfold sayWait
  cases getWavDuration scaled <;> rfl

/-- The wait phase only appends wait actions to the trace. -/
theorem sayWait_trace_ext (env : SayEnv) (tr : List SayAction)
    (cache : List (String × List Nat)) (fc : Bool) (scaled : List Nat) (fin : Bool)
    (pr : Option String) :
    ∃ tl, (sayWait env tr cache fc scaled fin pr).trace = tr ++ tl ∧
      ∀ x ∈ tl, x.isWait = true := by
  unfold sayWait
  cases getWavDuration scaled with
  | none => exact ⟨[], by simp⟩
  | some dur =>
    refine ⟨[SayAction.waitOutcome (dur + 1 / 4) (waitReturnAt env fin (dur + 1 / 4))
      (!waitSignalled env fin pr (dur + 1 / 4))], rfl, ?_⟩
    intro x hx
    simp only [List.mem_singleton] at hx
    subst hx
    rfl

/-- Cache-and-wait on a cache hit (`from_cache = true`): no write happens,
the cache is untouched. -/
theorem sayCacheAndWait_hit (env : SayEnv) (fn : String) (tr : List SayAction)
    (original scaled : List Nat) (fin : Bool) (pr : Option String) :
    sayCacheAndWait env fn true tr original scaled fin pr =
      sayWait env tr env.cache true scaled fin pr := by
  simp [sayCacheAndWait]

/-- Cache-and-wait on a miss with caching enabled and a successful write:
the pre-scaling bytes are appended to the trace and stored. -/
theorem sayCacheAndWait_write (env : SayEnv) (fn : String) (tr : List SayAction)
    (original scaled : List Nat) (fin : Bool) (pr : Option String)
    (hc : env.cacheEnabled = true) (hw : env.cacheWriteSucceeds = true) :
    sayCacheAndWait env fn false tr original scaled fin pr =
      sayWait env (tr ++ [SayAction.cacheWrite fn original])
        ((fn, original) :: env.cache) false scaled fin pr := by
  simp [sayCacheAndWait, hc, hw]

/-- Cache-and-wait on a miss with caching enabled and a failing write: the
exception escapes before any wait, the cache is unchanged, the pending
entry (if any) is never removed. -/
theorem sayCacheAndWait_fail (env : SayEnv) (fn : String) (tr : List SayAction)
    (original scaled : List Nat) (fin : Bool) (pr : Option String)
    (hc : env.cacheEnabled = true) (hw : env.cacheWriteSucceeds = false) :
    sayCacheAndWait env fn false tr original scaled fin pr =
      { trace := tr, cache := env.cache, pendingAtEnd := pr.toList
        fromCache := false, error := some "cache write failed" } := by
  simp [sayCacheAndWait, hc, hw]

/-- Cache-and-wait with caching disabled: no write. -/
theorem sayCacheAndWait_nocache (env : SayEnv) (fn : String) (fc : Bool)
    (tr : List SayAction) (original scaled : List Nat) (fin : Bool) (pr : Option String)
    (hc : env.cacheEnabled = false) :
    sayCacheAndWait env fn fc tr original scaled fin pr =
      sayWait env tr env.cache fc scaled fin pr := by
  simp [sayCacheAndWait, hc]

/-- The dispatch phase on the bus path: register the pending entry, publish
the (scaled) bytes, then cache-and-wait. -/
theorem sayAfterWav_bus (env : SayEnv) (say : TtsSay) (fn : String) (fc : Bool)
    (tr : List SayAction) (wav : List Nat) (hp : env.playCommand = false) :
    sayAfterWav env say fn fc tr wav =
      sayCacheAndWait env fn fc
        (tr ++ [SayAction.registerPending (requestIdOf env say),
                SayAction.yieldPlayBytes (applyVolume env say wav) say.siteId (requestIdOf env say)])
        wav (applyVolume env say wav) false (some (requestIdOf env say)) := by
  simp [sayAfterWav, hp]

/-- The dispatch phase on the local-player path: no pending entry is ever
registered. -/
theorem sayAfterWav_local (env : SayEnv) (say : TtsSay) (fn : String) (fc : Bool)
    (tr : List SayAction) (wav : List Nat) (hp : env.playCommand = true) :
    sayAfterWav env say fn fc tr wav =
      (if env.localPlaySucceeds then
        sayCacheAndWait env fn fc (tr ++ [SayAction.localPlay (applyVolume env say wav)])
          wav (applyVolume env say wav) true none
      else
        sayCacheAndWait env fn fc
          (tr ++ [SayAction.yieldAudioPlayError "play_command" say.id say.siteId say.sessionId])
          wav (applyVolume env say wav) false none) := by
  by_cases hl : env.localPlaySucceeds <;> simp [sayAfterWav, hp, hl]

/-- The synthesis phase with a successful non-empty result. -/
theorem saySynth_ok (env : SayEnv) (say : TtsSay) (fn : String) (fc : Bool)
    (tr : List SayAction) (w : List Nat) (hs : env.synthResult = some w) (hw : w ≠ []) :
    saySynth env say fn fc tr =
      sayAfterWav env say fn fc
        (tr ++ [SayAction.synthCall (resolveVoiceName env say) say.text]) w := by
  simp [saySynth, hs, hw]

/-- The core on a cache miss (caching enabled, no file for the key). -/
theorem sayCore_miss (env : SayEnv) (say : TtsSay) (voice : VoiceInfo)
    (hv : env.voices.lookup (resolveVoiceName env say) = some voice)
    (hc : env.cacheEnabled = true)
    (hm : env.cache.lookup (sentenceFile voice say.text) = none) :
    sayCore env say = saySynth env say (sentenceFile voice say.text) false [] := by
  simp [sayCore, hv, hc, hm]

/-- The core with caching disabled. -/
theorem sayCore_nocache (env : SayEnv) (say : TtsSay) (voice : VoiceInfo)
    (hv : env.voices.lookup (resolveVoiceName env say) = some voice)
    (hc : env.cacheEnabled = false) :
    sayCore env say = saySynth env say (sentenceFile voice say.text) false [] := by
  simp [sayCore, hv, hc]

/-- The core on a cache hit with non-empty bytes. -/
theorem sayCore_hit (env : SayEnv) (say : TtsSay) (voice : VoiceInfo) (b : List Nat)
    (hv : env.voices.lookup (resolveVoiceName env say) = some voice)
    (hc : env.cacheEnabled = true)
    (hm : env.cache.lookup (sentenceFile voice say.text) = some b) (hb : b ≠ []) :
    sayCore env say = sayAfterWav env say (sentenceFile voice say.text) true
      [SayAction.cacheRead (sentenceFile voice say.text) b] b := by
  simp [sayCore, hv, hc, hm, hb]

/-- The core on a cache hit whose file is empty: `from_cache` is already
`true`, yet synthesis still runs. -/
theorem sayCore_hit_empty (env : SayEnv) (say : TtsSay) (voice : VoiceInfo)
    (hv : env.voices.lookup (resolveVoiceName env say) = some voice)
    (hc : env.cacheEnabled = true)
    (hm : env.cache.lookup (sentenceFile voice say.text) = some []) :
    sayCore env say = saySynth env say (sentenceFile voice say.text) true
      [SayAction.cacheRead (sentenceFile voice say.text) []] := by
  simp [sayCore, hv, hc, hm]

/-- Trace actions never publish a `TtsSayFinished`: the terminal event is
produced solely by the `finally:` clause. -/
theorem coreEvents_no_finished (acts : List SayAction) :
    (coreEvents acts).countP Event.isSayFinished = 0 := by
  induction acts with
  | nil => rfl
  | cons a tl ih =>
    cases a <;> simpa [coreEvents, List.filterMap_cons, actionEvent, List.countP_cons,
      Event.isSayFinished] using ih

/-- The last element of a list ending in a singleton. -/
theorem getLast_append_singleton {α : Type} (l : List α) (x : α) :
    (l ++ [x]).getLast? = some x := by
  induction l with
  | nil => rfl
  | cons a tl ih => rw [List.cons_append, List.getLast?_cons, ih]; rfl

/-- C1: every `handle_say` run — on every path, including unknown voice,
synthesis failure, playback dispatch failure, decode failure and cache
write failure — yields exactly one `TtsSayFinished`, it is the last event,
and it carries the request's original id, site id and session id. -/
theorem handleSay_exactly_one_finished (env : SayEnv) (say : TtsSay) :
    (handleSay env say).events.countP Event.isSayFinished = 1 ∧
    (handleSay env say).events.getLast? =
      some (Event.sayFinished say.id say.siteId say.sessionId) := by
  unfold handleSay
  constructor
  · simp only [List.countP_append, coreEvents_no_finished]
    cases (sayCore env say).error <;>
      simp [List.countP_cons, List.countP_nil, Event.isSayFinished]
  · exact getLast_append_singleton _ _

/-- A voice named `alice`. -/
def vAlice : VoiceInfo :=
  { name := "alice", language := "en", ttsModelType := "glow_tts"
    ttsModelPath := "/models/tts", vocoderModelType := "hifi_gan"
    vocoderModelPath := "/models/voc" }

/-- The same voice configuration with the name changed to `bob`. -/
def vBob : VoiceInfo := { vAlice with name := "bob" }

/-- C2: the code contradicts the claim: two voices that differ only in
their name produce the same cache identity — `cache_id`'s first component
is the literal string `\x7bself.name\x7d` because the `f` prefix is missing on
that line — so the same sentence gets the same cache key for both voices,
while the claim (and `cache_id`'s own docstring, "a unique id for this
voice") requires the key to change with the name. -/
theorem cacheId_ignores_voice_name :
    vAlice.name ≠ vBob.name ∧
    vAlice.cacheId = vBob.cacheId ∧
    getSentenceHash vAlice.cacheId "hello" = getSentenceHash vBob.cacheId "hello" := by
  decide

/-- C9: `change_volume` with factor exactly `1.0` returns the input bytes
unchanged (identity law), for every input byte string. -/
theorem changeVolume_identity (wav : List Nat) : changeVolume wav 1 = wav := by
  simp [changeVolume]

/-- C8 counterexample: with two configured voices and an enumeration
failure injected after the first descriptor, `handle_get_voices` emits the
error — and then still emits a `Voices` response carrying the partial list
`["a"]`, contradicting "an error event instead of a voices list; a partial
list is never emitted". -/
theorem handleGetVoices_partial_cex :
    handleGetVoices ["a", "b"] (some 1) { id := some "q", siteId := "s" } =
      [GvEvent.gvError "enumeration failed" (some "q") "s",
       GvEvent.voicesList ["a"] (some "q") "s"] ∧
    GvEvent.voicesList ["a"] (some "q") "s" ∈
      handleGetVoices ["a", "b"] (some 1) { id := some "q", siteId := "s" } ∧
    (["a"] : List String) ≠ ["a", "b"] := by
  decide

/-- C8 amended: on an enumeration failure after `k` descriptors the output
is a `TtsError` followed by a `Voices` response with the partial list built
so far (the `Voices` yield sits outside the `try` and always runs); on
success the single `Voices` response carries one descriptor per configured
voice identifier. -/
theorem handleGetVoices_error_and_partial (ids : List String) (k : Nat)
    (gv : GetVoicesMsg) (h : k < ids.length) :
    handleGetVoices ids (some k) gv =
      [GvEvent.gvError "enumeration failed" gv.id gv.siteId,
       GvEvent.voicesList (ids.take k) gv.id gv.siteId] ∧
    handleGetVoices ids none gv = [GvEvent.voicesList ids gv.id gv.siteId] := by
  simp [handleGetVoices, h]

/-- Witness for the amended C8 theorem at a concrete input. -/
theorem handleGetVoices_error_and_partial_witness :
    handleGetVoices ["a", "b"] (some 1) { id := some "w", siteId := "s" } =
      [GvEvent.gvError "enumeration failed" (some "w") "s",
       GvEvent.voicesList ["a"] (some "w") "s"] ∧
    handleGetVoices ["a", "b"] none { id := some "w", siteId := "s" } =
      [GvEvent.voicesList ["a", "b"] (some "w") "s"] :=
  handleGetVoices_error_and_partial ["a", "b"] 1 { id := some "w", siteId := "s" } (by decide)

/-- A wait action is not a cache write. -/
theorem isWait_not_isCacheWrite (x : SayAction) :
    x.isWait = true → x.isCacheWrite = false := by
  cases x <;> simp [SayAction.isWait, SayAction.isCacheWrite]

/-- The `from_cache` flag survives the cache-and-wait phase unchanged. -/
theorem sayCacheAndWait_fromCache (env : SayEnv) (fn : String) (fc : Bool)
    (tr : List SayAction) (o s : List Nat) (f : Bool) (p : Option String) :
    (sayCacheAndWait env fn fc tr o s f p).fromCache = fc := by
  unfold sayCacheAndWait
  split
  · split
    · rw [sayWait_fromCache]
    · rfl
  · rw [sayWait_fromCache]

/-- The `from_cache` flag survives the dispatch phase unchanged. -/
theorem sayAfterWav_fromCache (env : SayEnv) (say : TtsSay) (fn : String) (fc : Bool)
    (tr : List SayAction) (wav : List Nat) :
    (sayAfterWav env say fn fc tr wav).fromCache = fc := by
  unfold sayAfterWav
  split
  · split
    · rw [sayCacheAndWait_fromCache]
    · rw [sayCacheAndWait_fromCache]
  · rw [sayCacheAndWait_fromCache]

/-- The cache-and-wait phase only extends the trace it is given. -/
theorem sayCacheAndWait_trace_ext (env : SayEnv) (fn : String) (fc : Bool)
    (tr : List SayAction) (o s : List Nat) (f : Bool) (p : Option String) :
    ∃ tl, (sayCacheAndWait env fn fc tr o s f p).trace = tr ++ tl := by
  unfold sayCacheAndWait
  split
  · split
    · obtain ⟨tl, htl, _⟩ := sayWait_trace_ext env (tr ++ [SayAction.cacheWrite fn o])
        ((fn, o) :: env.cache) fc s f p
      exact ⟨SayAction.cacheWrite fn o :: tl, by simpa [List.append_assoc] using htl⟩
    · exact ⟨[], by simp⟩
  · obtain ⟨tl, htl, _⟩ := sayWait_trace_ext env tr env.cache fc s f p
    exact ⟨tl, htl⟩

/-- The dispatch phase only extends the trace it is given. -/
theorem sayAfterWav_trace_ext (env : SayEnv) (say : TtsSay) (fn : String) (fc : Bool)
    (tr : List SayAction) (wav : List Nat) :
    ∃ tl, (sayAfterWav env say fn fc tr wav).trace = tr ++ tl := by
  unfold sayAfterWav
  split
  · split
    · obtain ⟨tl, htl⟩ := sayCacheAndWait_trace_ext env fn fc
        (tr ++ [SayAction.localPlay (applyVolume env say wav)]) wav
        (applyVolume env say wav) true none
      exact ⟨SayAction.localPlay (applyVolume env say wav) :: tl,
        by simpa [List.append_assoc] using htl⟩
    · obtain ⟨tl, htl⟩ := sayCacheAndWait_trace_ext env fn fc
        (tr ++ [SayAction.yieldAudioPlayError "play_command" say.id say.siteId say.sessionId])
        wav (applyVolume env say wav) false none
      exact ⟨SayAction.yieldAudioPlayError "play_command" say.id say.siteId say.sessionId :: tl,
        by simpa [List.append_assoc] using htl⟩
  · obtain ⟨tl, htl⟩ := sayCacheAndWait_trace_ext env fn fc
      (tr ++ [SayAction.registerPending (requestIdOf env say),
              SayAction.yieldPlayBytes (applyVolume env say wav) say.siteId (requestIdOf env say)])
      wav (applyVolume env say wav) false (some (requestIdOf env say))
    exact ⟨SayAction.registerPending (requestIdOf env say) ::
        SayAction.yieldPlayBytes (applyVolume env say wav) say.siteId (requestIdOf env say) :: tl,
      by simpa [List.append_assoc] using htl⟩

/-- On a miss with caching enabled and a successful write, whichever
playback branch runs, the dispatch phase records a cache write of exactly
the pre-scaling bytes and stores them in the cache. -/
theorem sayAfterWav_write_facts (env : SayEnv) (say : TtsSay) (fn : String)
    (tr : List SayAction) (wav : List Nat)
    (hc : env.cacheEnabled = true) (hwr : env.cacheWriteSucceeds = true) :
    SayAction.cacheWrite fn wav ∈ (sayAfterWav env say fn false tr wav).trace ∧
    (sayAfterWav env say fn false tr wav).cache = (fn, wav) :: env.cache := by
  unfold sayAfterWav
  split
  · split
    · rw [sayCacheAndWait_write _ _ _ _ _ _ _ hc hwr]
      obtain ⟨tl, htl, _⟩ := sayWait_trace_ext env
        ((tr ++ [SayAction.localPlay (applyVolume env say wav)]) ++ [SayAction.cacheWrite fn wav])
        ((fn, wav) :: env.cache) false (applyVolume env say wav) true none
      exact ⟨by rw [htl]; simp, by rw [sayWait_cache]⟩
    · rw [sayCacheAndWait_write _ _ _ _ _ _ _ hc hwr]
      obtain ⟨tl, htl, _⟩ := sayWait_trace_ext env
        ((tr ++ [SayAction.yieldAudioPlayError "play_command" say.id say.siteId say.sessionId])
          ++ [SayAction.cacheWrite fn wav])
        ((fn, wav) :: env.cache) false (applyVolume env say wav) false none
      exact ⟨by rw [htl]; simp, by rw [sayWait_cache]⟩
  · rw [sayCacheAndWait_write _ _ _ _ _ _ _ hc hwr]
    obtain ⟨tl, htl, _⟩ := sayWait_trace_ext env
      ((tr ++ [SayAction.registerPending (requestIdOf env say),
               SayAction.yieldPlayBytes (applyVolume env say wav) say.siteId (requestIdOf env say)])
        ++ [SayAction.cacheWrite fn wav])
      ((fn, wav) :: env.cache) false (applyVolume env say wav) false (some (requestIdOf env say))
    exact ⟨by rw [htl]; simp, by rw [sayWait_cache]⟩

/-- The cache file name depends only on the voice's cache identity and the
sentence text. -/
theorem sentenceFile_congr (v₁ v₂ : VoiceInfo) (t₁ t₂ : String)
    (hv : v₁.cacheId = v₂.cacheId) (ht : t₁ = t₂) :
    sentenceFile v₁ t₁ = sentenceFile v₂ t₂ := by
  simp [sentenceFile, getSentenceHash, hv, ht]

/-- C3: on a cache miss with caching enabled and a successful write, the
bytes written to the cache file are exactly the pre-scaling synthesized
bytes `w`, whatever the effective volume override and playback path; and
any later request (any environment, any volume) hitting the same
(voice-cache-identity, text) pair reads back exactly those bytes from the
cache, marked `from_cache`. -/
theorem handleSay_cache_prescaled_roundtrip
    (env : SayEnv) (say : TtsSay) (voice : VoiceInfo) (w : List Nat)
    (hv : env.voices.lookup (resolveVoiceName env say) = some voice)
    (hc : env.cacheEnabled = true)
    (hm : env.cache.lookup (sentenceFile voice say.text) = none)
    (hs : env.synthResult = some w) (hw : w ≠ [])
    (hwr : env.cacheWriteSucceeds = true) :
    SayAction.cacheWrite (sentenceFile voice say.text) w ∈ (handleSay env say).core.trace ∧
    (handleSay env say).core.cache.lookup (sentenceFile voice say.text) = some w ∧
    ∀ env₂ say₂ voice₂,
      env₂.voices.lookup (resolveVoiceName env₂ say₂) = some voice₂ →
      env₂.cacheEnabled = true →
      env₂.cache = (handleSay env say).core.cache →
      voice₂.cacheId = voice.cacheId → say₂.text = say.text →
      (handleSay env₂ say₂).core.fromCache = true ∧
      SayAction.cacheRead (sentenceFile voice₂ say₂.text) w ∈ (handleSay env₂ say₂).core.trace := by
  have e1 : (handleSay env say).core
      = sayAfterWav env say (sentenceFile voice say.text) false
          ([] ++ [SayAction.synthCall (resolveVoiceName env say) say.text]) w := by
    show sayCore env say = _
    rw [sayCore_miss env say voice hv hc hm, saySynth_ok env say _ false [] w hs hw]
  obtain ⟨hmem, hcache⟩ := sayAfterWav_write_facts env say (sentenceFile voice say.text)
    ([] ++ [SayAction.synthCall (resolveVoiceName env say) say.text]) w hc hwr
  refine ⟨by rw [e1]; exact hmem, by rw [e1, hcache]; simp [List.lookup], ?_⟩
  intro env₂ say₂ voice₂ hv₂ hc₂ hcacheEq hid ht
  have hfn : sentenceFile voice₂ say₂.text = sentenceFile voice say.text :=
    sentenceFile_congr _ _ _ _ hid ht
  have hm₂ : env₂.cache.lookup (sentenceFile voice₂ say₂.text) = some w := by
    rw [hfn, hcacheEq, e1, hcache]
    simp [List.lookup]
  have e2 : (handleSay env₂ say₂).core
      = sayAfterWav env₂ say₂ (sentenceFile voice₂ say₂.text) true
          [SayAction.cacheRead (sentenceFile voice₂ say₂.text) w] w := by
    show sayCore env₂ say₂ = _
    rw [sayCore_hit env₂ say₂ voice₂ w hv₂ hc₂ hm₂ hw]
  constructor
  · rw [e2, sayAfterWav_fromCache]
  · obtain ⟨tl, htl⟩ := sayAfterWav_trace_ext env₂ say₂ (sentenceFile voice₂ say₂.text) true
      [SayAction.cacheRead (sentenceFile voice₂ say₂.text) w] w
    rw [e2, htl]
    simp

/-- Witness for C3 at a concrete input: the first run writes the
synthesized bytes, a second run over the resulting cache is a hit. -/
theorem handleSay_cache_prescaled_roundtrip_witness :
    SayAction.cacheWrite (sentenceFile vEn "hello") wav48 ∈ (handleSay envBase say0).core.trace ∧
    (handleSay { envBase with cache := (handleSay envBase say0).core.cache } say0).core.fromCache = true := by
  obtain ⟨h1, h2, h3⟩ := handleSay_cache_prescaled_roundtrip envBase say0 vEn wav48
    rfl rfl rfl rfl (by decide) rfl
  exact ⟨h1, (h3 { envBase with cache := (handleSay envBase say0).core.cache } say0 vEn
    rfl rfl rfl rfl rfl).1⟩

/-- Full reduction of the core on the no-cache, bus-dispatch, successful
path: synthesis, registration, publication, then the bounded wait. -/
theorem sayCore_nocache_bus (env : SayEnv) (say : TtsSay) (voice : VoiceInfo)
    (w : List Nat) (d : ℚ)
    (hv : env.voices.lookup (resolveVoiceName env say) = some voice)
    (hc : env.cacheEnabled = false)
    (hs : env.synthResult = some w) (hw : w ≠ [])
    (hp : env.playCommand = false)
    (hd : getWavDuration (applyVolume env say w) = some d) :
    sayCore env say =
      { trace := [SayAction.synthCall (resolveVoiceName env say) say.text,
                  SayAction.registerPending (requestIdOf env say),
                  SayAction.yieldPlayBytes (applyVolume env say w) say.siteId (requestIdOf env say),
                  SayAction.waitOutcome (d + 1 / 4) (waitReturnAt env false (d + 1 / 4))
                    (!arrivedInTime env (d + 1 / 4))]
        cache := env.cache
        pendingAtEnd := if arrivedInTime env (d + 1 / 4) then [] else [requestIdOf env say]
        fromCache := false, error := none } := by
  rw [sayCore_nocache env say voice hv hc, saySynth_ok env say _ false [] w hs hw,
    sayAfterWav_bus env say _ false _ w hp,
    sayCacheAndWait_nocache env _ false _ w (applyVolume env say w) false _ hc,
    sayWait_eq env _ env.cache false (applyVolume env say w) false _ d hd]
  simp [waitSignalled]

/-- When the signal arrives in time, the wait returns at the arrival. -/
theorem waitReturnAt_some_le (env : SayEnv) (t a : ℚ)
    (ha : env.playFinishedArrival = some a) (hle : a ≤ t) :
    waitReturnAt env false t = a := by
  show (match env.playFinishedArrival with
    | some a => if a ≤ t then a else t
    | none => t) = a
  rw [ha]
  exact if_pos hle

/-- When the signal never arrives, the wait returns at the deadline. -/
theorem waitReturnAt_none (env : SayEnv) (t : ℚ)
    (ha : env.playFinishedArrival = none) : waitReturnAt env false t = t := by
  show (match env.playFinishedArrival with
    | some a => if a ≤ t then a else t
    | none => t) = t
  rw [ha]

/-- A timely arrival makes `arrivedInTime` true. -/
theorem arrivedInTime_some_le (env : SayEnv) (t a : ℚ)
    (ha : env.playFinishedArrival = some a) (hle : a ≤ t) :
    arrivedInTime env t = true := by
  unfold arrivedInTime
  rw [ha]
  exact decide_eq_true hle

/-- No arrival makes `arrivedInTime` false. -/
theorem arrivedInTime_none (env : SayEnv) (t : ℚ)
    (ha : env.playFinishedArrival = none) : arrivedInTime env t = false := by
  unfold arrivedInTime
  rw [ha]

/-- C4: on a bus-dispatched request, the completion wait uses the timeout
`d + 1/4` where `d` is the estimated duration of the dispatched (scaled)
bytes, computed as `((length - 44) / sample_width) / frame_rate`; if the
`PlaybackFinished` signal arrives at `a ≤ d + 1/4` the wait returns at `a`
(immediately on arrival), and if it never arrives the wait returns at the
deadline with the timed-out flag set, the request raising no error and
still ending in the terminal finished event. -/
theorem handleSay_wait_bounded (env : SayEnv) (say : TtsSay) (voice : VoiceInfo)
    (w : List Nat) (d : ℚ)
    (hv : env.voices.lookup (resolveVoiceName env say) = some voice)
    (hc : env.cacheEnabled = false)
    (hs : env.synthResult = some w) (hw : w ≠ [])
    (hp : env.playCommand = false)
    (hd : getWavDuration (applyVolume env say w) = some d) :
    SayAction.waitOutcome (d + 1 / 4) (waitReturnAt env false (d + 1 / 4))
      (!arrivedInTime env (d + 1 / 4)) ∈ (handleSay env say).core.trace ∧
    (∀ a, env.playFinishedArrival = some a → a ≤ d + 1 / 4 →
      waitReturnAt env false (d + 1 / 4) = a ∧ arrivedInTime env (d + 1 / 4) = true) ∧
    (env.playFinishedArrival = none →
      waitReturnAt env false (d + 1 / 4) = d + 1 / 4 ∧
      arrivedInTime env (d + 1 / 4) = false) ∧
    (handleSay env say).core.error = none ∧
    (handleSay env say).events.getLast? =
      some (Event.sayFinished say.id say.siteId say.sessionId) ∧
    (∀ hh, parseWavHeader (applyVolume env say w) = some hh →
      d = (((applyVolume env say w).length : ℚ) - 44) / (hh.sampwidth : ℚ) / (hh.framerate : ℚ)) := by
  have e1 : (handleSay env say).core = _ := sayCore_nocache_bus env say voice w d hv hc hs hw hp hd
  refine ⟨by rw [e1]; simp, ?_, ?_, by rw [e1], getLast_append_singleton _ _, ?_⟩
  · intro a ha hle
    exact ⟨waitReturnAt_some_le env _ a ha hle, arrivedInTime_some_le env _ a ha hle⟩
  · intro ha
    exact ⟨waitReturnAt_none env _ ha, arrivedInTime_none env _ ha⟩
  · intro hh hparse
    unfold getWavDuration at hd
    rw [hparse] at hd
    by_cases hz : hh.sampwidth = 0 ∨ hh.framerate = 0
    · simp [hz] at hd
    · simp [hz] at hd
      exact hd.symm

/-- The concrete environment with caching disabled. -/
def envNoCache : SayEnv := { envBase with cacheEnabled := false }

/-- The estimated duration of `wav48`: `((48 - 44) / 2) / 2`. -/
def dur48 : ℚ := (((48 : ℕ) : ℚ) - 44) / ((2 : ℕ) : ℚ) / ((2 : ℕ) : ℚ)

/-- Witness for C4 at a concrete input. -/
theorem handleSay_wait_bounded_witness :
    SayAction.waitOutcome (dur48 + 1 / 4) (waitReturnAt envNoCache false (dur48 + 1 / 4))
      (!arrivedInTime envNoCache (dur48 + 1 / 4)) ∈ (handleSay envNoCache say0).core.trace ∧
    (handleSay envNoCache say0).core.error = none := by
  obtain ⟨h1, _, _, h4, _, _⟩ := handleSay_wait_bounded envNoCache say0 vEn wav48 dur48
    rfl rfl rfl (by decide) rfl rfl
  exact ⟨h1, h4⟩

/-- C5 counterexample: on a concrete cache-miss bus request, the cache
write occurs in the trace strictly before the completion wait, refuting the
claimed order "playback dispatch, then the completion wait, then cache
filling". -/
theorem handleSay_cachefill_before_wait_cex :
    (handleSay envBase say0).core.trace.findIdx SayAction.isCacheWrite <
      (handleSay envBase say0).core.trace.findIdx SayAction.isWait ∧
    (handleSay envBase say0).core.trace.any SayAction.isCacheWrite = true ∧
    (handleSay envBase say0).core.trace.any SayAction.isWait = true := by
  decide

/-- C5 amended: on a cache-miss bus request where every step succeeds, the
lifecycle order is playback dispatch, then cache filling (with the
pre-scaling bytes), then the completion wait, then the terminal finished
event: the trace is exactly synthesis, registration, dispatch, cache write,
wait, and the finished event closes the event stream. -/
theorem handleSay_dispatch_cachefill_wait_order (env : SayEnv) (say : TtsSay)
    (voice : VoiceInfo) (w : List Nat) (d : ℚ)
    (hv : env.voices.lookup (resolveVoiceName env say) = some voice)
    (hc : env.cacheEnabled = true)
    (hm : env.cache.lookup (sentenceFile voice say.text) = none)
    (hs : env.synthResult = some w) (hw : w ≠ [])
    (hwr : env.cacheWriteSucceeds = true)
    (hp : env.playCommand = false)
    (hd : getWavDuration (applyVolume env say w) = some d) :
    (handleSay env say).core.trace =
      [SayAction.synthCall (resolveVoiceName env say) say.text,
       SayAction.registerPending (requestIdOf env say),
       SayAction.yieldPlayBytes (applyVolume env say w) say.siteId (requestIdOf env say),
       SayAction.cacheWrite (sentenceFile voice say.text) w,
       SayAction.waitOutcome (d + 1 / 4) (waitReturnAt env false (d + 1 / 4))
         (!arrivedInTime env (d + 1 / 4))] ∧
    (handleSay env say).events.getLast? =
      some (Event.sayFinished say.id say.siteId say.sessionId) := by
  have e1 : (handleSay env say).core
      = sayWait env
          ((([] ++ [SayAction.synthCall (resolveVoiceName env say) say.text])
            ++ [SayAction.registerPending (requestIdOf env say),
                SayAction.yieldPlayBytes (applyVolume env say w) say.siteId (requestIdOf env say)])
            ++ [SayAction.cacheWrite (sentenceFile voice say.text) w])
          ((sentenceFile voice say.text, w) :: env.cache) false
          (applyVolume env say w) false (some (requestIdOf env say)) := by
    show sayCore env say = _
    rw [sayCore_miss env say voice hv hc hm, saySynth_ok env say _ false [] w hs hw,
      sayAfterWav_bus env say _ false _ w hp,
      sayCacheAndWait_write env _ _ w (applyVolume env say w) false _ hc hwr]
  refine ⟨?_, getLast_append_singleton _ _⟩
  rw [e1, sayWait_eq env _ _ false (applyVolume env say w) false _ d hd]
  simp [waitSignalled]

/-- Witness for the amended C5 theorem at a concrete input. -/
theorem handleSay_dispatch_cachefill_wait_order_witness :
    (handleSay envBase say0).core.trace =
      [SayAction.synthCall "en" "hello",
       SayAction.registerPending "ctx",
       SayAction.yieldPlayBytes wav48 "site" "ctx",
       SayAction.cacheWrite (sentenceFile vEn "hello") wav48,
       SayAction.waitOutcome (dur48 + 1 / 4) (waitReturnAt envBase false (dur48 + 1 / 4))
         (!arrivedInTime envBase (dur48 + 1 / 4))] :=
  (handleSay_dispatch_cachefill_wait_order envBase say0 vEn wav48 dur48
    rfl rfl rfl rfl (by decide) rfl rfl rfl).1

/-- C6 counterexample: on a concrete bus-dispatched request whose
`PlaybackFinished` never arrives, the wait runs (and times out), the
request finishes — and its `play_finished_events` entry is still present
when processing ends, refuting "removed when the deadline fires; never
outlives the request's processing". -/
theorem pendingPlayback_outlives_cex :
    (handleSay envNoCache say0).core.pendingAtEnd = ["ctx"] ∧
    (handleSay envNoCache say0).core.trace.any SayAction.isWait = true ∧
    (handleSay envNoCache say0).events.getLast? =
      some (Event.sayFinished (some "ctx") "site" "sess") := by
  decide

/-- C6 amended: a pending entry is created only on bus dispatch, never for
local-process playback; it is removed only when the `PlaybackFinished`
signal arrives before the deadline — when the deadline fires first the
entry is not removed and survives the request's processing. -/
theorem pendingPlayback_lifecycle (env : SayEnv) (say : TtsSay) (voice : VoiceInfo)
    (w : List Nat) (d : ℚ)
    (hv : env.voices.lookup (resolveVoiceName env say) = some voice)
    (hc : env.cacheEnabled = false)
    (hs : env.synthResult = some w) (hw : w ≠ [])
    (hd : getWavDuration (applyVolume env say w) = some d) :
    (env.playCommand = true →
      (handleSay env say).core.trace.any SayAction.isRegister = false ∧
      (handleSay env say).core.pendingAtEnd = []) ∧
    (env.playCommand = false →
      SayAction.registerPending (requestIdOf env say) ∈ (handleSay env say).core.trace ∧
      (∀ a, env.playFinishedArrival = some a → a ≤ d + 1 / 4 →
        (handleSay env say).core.pendingAtEnd = []) ∧
      (env.playFinishedArrival = none →
        (handleSay env say).core.pendingAtEnd = [requestIdOf env say])) := by
  constructor
  · intro hp
    have e0 : (handleSay env say).core = sayCore env say := rfl
    rw [e0, sayCore_nocache env say voice hv hc, saySynth_ok env say _ false [] w hs hw,
      sayAfterWav_local env say _ false _ w hp]
    by_cases hl : env.localPlaySucceeds
    · rw [if_pos hl,
        sayCacheAndWait_nocache env _ false _ w (applyVolume env say w) true none hc,
        sayWait_eq env _ env.cache false (applyVolume env say w) true none d hd]
      simp [SayAction.isRegister]
    · rw [if_neg hl,
        sayCacheAndWait_nocache env _ false _ w (applyVolume env say w) false none hc,
        sayWait_eq env _ env.cache false (applyVolume env say w) false none d hd]
      simp [SayAction.isRegister]
  · intro hp
    have e1 : (handleSay env say).core = _ := sayCore_nocache_bus env say voice w d hv hc hs hw hp hd
    refine ⟨by rw [e1]; simp, ?_, ?_⟩
    · intro a ha hle
      rw [e1]
      show (if arrivedInTime env (d + 1 / 4) = true then [] else [requestIdOf env say]) = []
      rw [arrivedInTime_some_le env (d + 1 / 4) a ha hle]
      rfl
    · intro ha
      rw [e1]
      show (if arrivedInTime env (d + 1 / 4) = true then [] else [requestIdOf env say])
        = [requestIdOf env say]
      rw [arrivedInTime_none env (d + 1 / 4) ha]
      rfl

/-- Witness for the amended C6 theorem at a concrete input. -/
theorem pendingPlayback_lifecycle_witness :
    SayAction.registerPending "ctx" ∈ (handleSay envNoCache say0).core.trace ∧
    (handleSay envNoCache say0).core.pendingAtEnd = ["ctx"] := by
  obtain ⟨_, h2⟩ := pendingPlayback_lifecycle envNoCache say0 vEn wav48 dur48
    rfl rfl rfl (by decide) rfl
  obtain ⟨hm, _, hnone⟩ := h2 rfl
  exact ⟨hm, hnone rfl⟩

/-- The concrete environment whose cache write fails. -/
def envWriteFail : SayEnv := { envBase with cacheWriteSucceeds := false }

/-- C7 counterexample: on a concrete request whose cache write fails, the
event stream contains a `TtsError` (so the failure is not "logged only, no
error event") and the trace contains no completion wait (so the remaining
lifecycle steps do not all execute); the audio had already been dispatched
and the terminal event still closes the stream. -/
theorem cacheWriteFailure_cex :
    (handleSay envWriteFail say0).events =
      [Event.playBytes wav48 "site" "ctx",
       Event.ttsError "cache write failed" (some "ctx") "site" "sess",
       Event.sayFinished (some "ctx") "site" "sess"] ∧
    (handleSay envWriteFail say0).core.trace.any SayAction.isWait = false := by
  decide

/-- C7 amended: a cache-write failure escapes to the generic handler: a
`TtsError` event is emitted and the completion wait is skipped, but the
audio was already dispatched before the write and the terminal finished
event is still emitted last. -/
theorem cacheWriteFailure_behavior (env : SayEnv) (say : TtsSay) (voice : VoiceInfo)
    (w : List Nat)
    (hv : env.voices.lookup (resolveVoiceName env say) = some voice)
    (hc : env.cacheEnabled = true)
    (hm : env.cache.lookup (sentenceFile voice say.text) = none)
    (hs : env.synthResult = some w) (hw : w ≠ [])
    (hwr : env.cacheWriteSucceeds = false)
    (hp : env.playCommand = false) :
    (handleSay env say).core.error = some "cache write failed" ∧
    Event.ttsError "cache write failed" say.id say.siteId say.sessionId
      ∈ (handleSay env say).events ∧
    (handleSay env say).core.trace.any SayAction.isWait = false ∧
    SayAction.yieldPlayBytes (applyVolume env say w) say.siteId (requestIdOf env say)
      ∈ (handleSay env say).core.trace ∧
    (handleSay env say).events.getLast? =
      some (Event.sayFinished say.id say.siteId say.sessionId) := by
  have e1 : sayCore env say =
      { trace := [] ++ [SayAction.synthCall (resolveVoiceName env say) say.text]
          ++ [SayAction.registerPending (requestIdOf env say),
              SayAction.yieldPlayBytes (applyVolume env say w) say.siteId (requestIdOf env say)]
        cache := env.cache
        pendingAtEnd := (some (requestIdOf env say)).toList
        fromCache := false, error := some "cache write failed" } := by
    rw [sayCore_miss env say voice hv hc hm, saySynth_ok env say _ false [] w hs hw,
      sayAfterWav_bus env say _ false _ w hp,
      sayCacheAndWait_fail env _ _ w (applyVolume env say w) false _ hc hwr]
  have e2 : (handleSay env say).core = sayCore env say := rfl
  refine ⟨by rw [e2, e1], ?_, by rw [e2, e1]; simp [SayAction.isWait], by rw [e2, e1]; simp,
    getLast_append_singleton _ _⟩
  show Event.ttsError "cache write failed" say.id say.siteId say.sessionId
    ∈ coreEvents (sayCore env say).trace
      ++ (match (sayCore env say).error with
          | some e => [Event.ttsError e say.id say.siteId say.sessionId]
          | none => [])
      ++ [Event.sayFinished say.id say.siteId say.sessionId]
  rw [e1]
  simp

/-- Witness for the amended C7 theorem at a concrete input. -/
theorem cacheWriteFailure_behavior_witness :
    Event.ttsError "cache write failed" (some "ctx") "site" "sess"
      ∈ (handleSay envWriteFail say0).events ∧
    (handleSay envWriteFail say0).core.trace.any SayAction.isWait = false := by
  obtain ⟨_, h2, h3, _, _⟩ := cacheWriteFailure_behavior envWriteFail say0 vEn wav48
    rfl rfl rfl rfl (by decide) rfl rfl
  exact ⟨h2, h3⟩

/-- On a hit (`from_cache = true`) the dispatch phase never writes the
cache and leaves it unchanged, on every playback branch. -/
theorem sayAfterWav_hit_no_write (env : SayEnv) (say : TtsSay) (fn : String)
    (tr : List SayAction) (wav : List Nat) :
    (sayAfterWav env say fn true tr wav).cache = env.cache ∧
    ∃ tl, (sayAfterWav env say fn true tr wav).trace = tr ++ tl ∧
      ∀ x ∈ tl, x.isCacheWrite = false := by
  unfold sayAfterWav
  split
  · split
    · rw [sayCacheAndWait_hit]
      obtain ⟨tl, htl, hall⟩ := sayWait_trace_ext env
        (tr ++ [SayAction.localPlay (applyVolume env say wav)]) env.cache true
        (applyVolume env say wav) true none
      refine ⟨sayWait_cache _ _ _ _ _ _ _,
        SayAction.localPlay (applyVolume env say wav) :: tl,
        by simpa [List.append_assoc] using htl, ?_⟩
      intro x hx
      rcases List.mem_cons.mp hx with h | h
      · subst h; rfl
      · exact isWait_not_isCacheWrite x (hall x h)
    · rw [sayCacheAndWait_hit]
      obtain ⟨tl, htl, hall⟩ := sayWait_trace_ext env
        (tr ++ [SayAction.yieldAudioPlayError "play_command" say.id say.siteId say.sessionId])
        env.cache true (applyVolume env say wav) false none
      refine ⟨sayWait_cache _ _ _ _ _ _ _,
        SayAction.yieldAudioPlayError "play_command" say.id say.siteId say.sessionId :: tl,
        by simpa [List.append_assoc] using htl, ?_⟩
      intro x hx
      rcases List.mem_cons.mp hx with h | h
      · subst h; rfl
      · exact isWait_not_isCacheWrite x (hall x h)
  · rw [sayCacheAndWait_hit]
    obtain ⟨tl, htl, hall⟩ := sayWait_trace_ext env
      (tr ++ [SayAction.registerPending (requestIdOf env say),
              SayAction.yieldPlayBytes (applyVolume env say wav) say.siteId (requestIdOf env say)])
      env.cache true (applyVolume env say wav) false (some (requestIdOf env say))
    refine ⟨sayWait_cache _ _ _ _ _ _ _,
      SayAction.registerPending (requestIdOf env say) ::
        SayAction.yieldPlayBytes (applyVolume env say wav) say.siteId (requestIdOf env say) :: tl,
      by simpa [List.append_assoc] using htl, ?_⟩
    intro x hx
    rcases List.mem_cons.mp hx with h | h
    · subst h; rfl
    · rcases List.mem_cons.mp h with h2 | h2
      · subst h2; rfl
      · exact isWait_not_isCacheWrite x (hall x h2)

/-- A run whose cache file exists but is empty: `from_cache` is set, the
synthesized bytes are produced, and the cache is never written. -/
theorem emptyHit_facts (env : SayEnv) (say : TtsSay) (voice : VoiceInfo) (w : List Nat)
    (hv : env.voices.lookup (resolveVoiceName env say) = some voice)
    (hc : env.cacheEnabled = true)
    (hm : env.cache.lookup (sentenceFile voice say.text) = some [])
    (hs : env.synthResult = some w) (hw : w ≠ []) :
    (handleSay env say).core.fromCache = true ∧
    SayAction.synthCall (resolveVoiceName env say) say.text ∈ (handleSay env say).core.trace ∧
    (∀ x ∈ (handleSay env say).core.trace, x.isCacheWrite = false) ∧
    (handleSay env say).core.cache = env.cache := by
  have e1 : (handleSay env say).core
      = sayAfterWav env say (sentenceFile voice say.text) true
          ([SayAction.cacheRead (sentenceFile voice say.text) []]
            ++ [SayAction.synthCall (resolveVoiceName env say) say.text]) w := by
    show sayCore env say = _
    rw [sayCore_hit_empty env say voice hv hc hm, saySynth_ok env say _ true _ w hs hw]
  obtain ⟨hcache, tl, htl, hnc⟩ := sayAfterWav_hit_no_write env say (sentenceFile voice say.text)
    ([SayAction.cacheRead (sentenceFile voice say.text) []]
      ++ [SayAction.synthCall (resolveVoiceName env say) say.text]) w
  refine ⟨by rw [e1, sayAfterWav_fromCache], by rw [e1, htl]; simp, ?_, by rw [e1, hcache]⟩
  intro x hx
  rw [e1, htl] at hx
  rcases List.mem_append.mp hx with h | h
  · rcases List.mem_append.mp h with h2 | h2
    · rw [List.mem_singleton.mp h2]; rfl
    · rw [List.mem_singleton.mp h2]; rfl
  · exact hnc x h

/-- C10: if the cache file for the key exists but is empty, `handle_say`
marks the request `from_cache`, still synthesizes (empty bytes are falsy),
never writes the fresh bytes back — the cache is unchanged — and any
subsequent request for the same (voice identity, text) pair over the
resulting cache synthesizes again. -/
theorem handleSay_empty_cache_entry (env : SayEnv) (say : TtsSay) (voice : VoiceInfo)
    (w : List Nat)
    (hv : env.voices.lookup (resolveVoiceName env say) = some voice)
    (hc : env.cacheEnabled = true)
    (hm : env.cache.lookup (sentenceFile voice say.text) = some [])
    (hs : env.synthResult = some w) (hw : w ≠ []) :
    (handleSay env say).core.fromCache = true ∧
    SayAction.synthCall (resolveVoiceName env say) say.text ∈ (handleSay env say).core.trace ∧
    (∀ x ∈ (handleSay env say).core.trace, x.isCacheWrite = false) ∧
    (handleSay env say).core.cache = env.cache ∧
    ∀ env₂ say₂ voice₂ w₂,
      env₂.voices.lookup (resolveVoiceName env₂ say₂) = some voice₂ →
      env₂.cacheEnabled = true →
      env₂.cache = (handleSay env say).core.cache →
      voice₂.cacheId = voice.cacheId → say₂.text = say.text →
      env₂.synthResult = some w₂ → w₂ ≠ [] →
      (handleSay env₂ say₂).core.fromCache = true ∧
      SayAction.synthCall (resolveVoiceName env₂ say₂) say₂.text
        ∈ (handleSay env₂ say₂).core.trace := by
  obtain ⟨h1, h2, h3, h4⟩ := emptyHit_facts env say voice w hv hc hm hs hw
  refine ⟨h1, h2, h3, h4, ?_⟩
  intro env₂ say₂ voice₂ w₂ hv₂ hc₂ hcacheEq hid ht hs₂ hw₂
  have hm₂ : env₂.cache.lookup (sentenceFile voice₂ say₂.text) = some [] := by
    rw [sentenceFile_congr _ _ _ _ hid ht, hcacheEq, h4]
    exact hm
  obtain ⟨g1, g2, _, _⟩ := emptyHit_facts env₂ say₂ voice₂ w₂ hv₂ hc₂ hm₂ hs₂ hw₂
  exact ⟨g1, g2⟩

/-- The concrete environment whose cache holds an empty file for the key. -/
def envEmptyHit : SayEnv := { envBase with cache := [(sentenceFile vEn "hello", [])] }

/-- Witness for C10 at a concrete input: the empty entry makes the run a
`from_cache` synthesis, and the follow-up run over the resulting cache
synthesizes again. -/
theorem handleSay_empty_cache_entry_witness :
    (handleSay envEmptyHit say0).core.fromCache = true ∧
    SayAction.synthCall "en" "hello"
      ∈ (handleSay { envEmptyHit with
          cache := (handleSay envEmptyHit say0).core.cache } say0).core.trace := by
  obtain ⟨h1, _, _, _, h5⟩ := handleSay_empty_cache_entry envEmptyHit say0 vEn wav48
    rfl rfl (by decide) rfl (by decide)
  exact ⟨h1, (h5 { envEmptyHit with cache := (handleSay envEmptyHit say0).core.cache } say0 vEn wav48
    rfl rfl rfl rfl rfl rfl (by decide)).2⟩
